import Mathlib

/-!
Verification of the sensor-toolbox numerical core.

The development shallowly embeds the Rust sources `src/lib.rs` (soil types,
VWC calculation) and `src/gas_flux.rs` (linear regression, gas flux).
`f64` arithmetic is modelled by exact rational arithmetic (`ℚ`); the single
NaN-valued input the code tests for (`temp_value.is_nan()`) is modelled by
an `Option ℚ` temperature, with `none` standing for NaN.  A Rust panic
(assert failure or out-of-bounds index) is modelled by an `Option` result
being `none`.
-/

namespace SensorToolbox

/-- The closed enumeration of soil calibration classes (`enum SoilType`). -/
inductive SoilType where
  | Sand
  | LoamySandA
  | LoamySandB
  | SandyLoamA
  | SandyLoamB
  | Loam
  | SiltLoam
  | Peat
  | Water
  | Universal
  | SandTMS1
  | LoamySandTMS1
  | SiltLoamTMS1
deriving DecidableEq

/-- `struct SoilTypeModel`: enumeration value plus display and machine names. -/
structure SoilTypeModel where
  id : SoilType
  name : String
  machine_name : String
deriving DecidableEq

/-- Soil type coefficients `(a, b, c)` for `VWC = a·count² + b·count + c`
(`SoilType::coeffs`). -/
def SoilType.coeffs : SoilType → ℚ × ℚ × ℚ
  | SoilType.Sand => (-3.00e-9, 0.000161192, -0.1099565)
  | SoilType.LoamySandA => (-1.90e-8, 0.000265610, -0.1540893)
  | SoilType.LoamySandB => (-2.30e-8, 0.000282473, -0.1672112)
  | SoilType.SandyLoamA => (-3.80e-8, 0.000339449, -0.2149218)
  | SoilType.SandyLoamB => (-9.00e-10, 0.000261847, -0.1586183)
  | SoilType.Loam => (-5.10e-8, 0.000397984, -0.2910464)
  | SoilType.SiltLoam => (1.70e-8, 0.000118119, -0.1011685)
  | SoilType.Peat => (1.23e-7, -0.000144644, 0.2029279)
  | SoilType.Water => (0.00e0, 0.0003067, -0.1349279)
  | SoilType.Universal => (-1.34e-8, 0.000249622, -0.1578888)
  | SoilType.SandTMS1 => (0.00e0, 0.00026, -0.13304)
  | SoilType.LoamySandTMS1 => (0.00e0, 0.00033, -0.19389)
  | SoilType.SiltLoamTMS1 => (0.00e0, 0.00038, -0.29427)

/-- Compact machine name of a soil type (`SoilType::as_str`). -/
def SoilType.as_str : SoilType → String
  | SoilType.Sand => "sand"
  | SoilType.LoamySandA => "loamysanda"
  | SoilType.LoamySandB => "loamysandb"
  | SoilType.SandyLoamA => "sandyloama"
  | SoilType.SandyLoamB => "sandyloamb"
  | SoilType.Loam => "loam"
  | SoilType.SiltLoam => "siltloam"
  | SoilType.Peat => "peat"
  | SoilType.Water => "water"
  | SoilType.Universal => "universal"
  | SoilType.SandTMS1 => "sandtms1"
  | SoilType.LoamySandTMS1 => "loamysandtms1"
  | SoilType.SiltLoamTMS1 => "siltloamtms1"

/-- The `From<SoilType> for SoilTypeModel` conversion: each soil type gets its
human-readable `name` and compact `machine_name`. -/
def SoilTypeModel.fromSoil : SoilType → SoilTypeModel
  | SoilType.Sand => ⟨SoilType.Sand, "Sand", "sand"⟩
  | SoilType.LoamySandA => ⟨SoilType.LoamySandA, "Loamy Sand A", "loamysanda"⟩
  | SoilType.LoamySandB => ⟨SoilType.LoamySandB, "Loamy Sand B", "loamysandb"⟩
  | SoilType.SandyLoamA => ⟨SoilType.SandyLoamA, "Sandy Loam A", "sandyloama"⟩
  | SoilType.SandyLoamB => ⟨SoilType.SandyLoamB, "Sandy Loam B", "sandyloamb"⟩
  | SoilType.Loam => ⟨SoilType.Loam, "Loam", "loam"⟩
  | SoilType.SiltLoam => ⟨SoilType.SiltLoam, "Silt Loam", "siltloam"⟩
  | SoilType.Peat => ⟨SoilType.Peat, "Peat", "peat"⟩
  | SoilType.Water => ⟨SoilType.Water, "Water", "water"⟩
  | SoilType.Universal => ⟨SoilType.Universal, "Universal", "universal"⟩
  | SoilType.SandTMS1 => ⟨SoilType.SandTMS1, "Sand TMS1", "sandtms1"⟩
  | SoilType.LoamySandTMS1 => ⟨SoilType.LoamySandTMS1, "Loamy Sand TMS1", "loamysandtms1"⟩
  | SoilType.SiltLoamTMS1 => ⟨SoilType.SiltLoamTMS1, "Silt Loam TMS1", "siltloamtms1"⟩

/-- Rust's `str::to_lowercase`, character by character.  On the ASCII strings
handled by this parsing boundary the Unicode lowering coincides with ASCII
lowering of `A`..`Z`, which is what `Char.toLower` performs. -/
def to_lowercase (s : String) : String := String.mk (s.data.map Char.toLower)

/-- The thirteen recognized machine names, in the order of the match arms of
`TryFrom<&str> for SoilTypeModel`. -/
def machine_names : List String :=
  ["sand", "loamysanda", "loamysandb", "sandyloama", "sandyloamb", "loam",
   "siltloam", "peat", "water", "universal", "sandtms1", "loamysandtms1",
   "siltloamtms1"]

/-- `TryFrom<&str> for SoilTypeModel`: lowercase the input, match it against
the machine names, and otherwise fail with an error carrying the original
string (`Err(format!("Unknown soil type: \x7bs\x7d"))`). -/
def SoilTypeModel.try_from (s : String) : Except String SoilTypeModel :=
  match to_lowercase s with
  | "sand" => Except.ok (SoilTypeModel.fromSoil SoilType.Sand)
  | "loamysanda" => Except.ok (SoilTypeModel.fromSoil SoilType.LoamySandA)
  | "loamysandb" => Except.ok (SoilTypeModel.fromSoil SoilType.LoamySandB)
  | "sandyloama" => Except.ok (SoilTypeModel.fromSoil SoilType.SandyLoamA)
  | "sandyloamb" => Except.ok (SoilTypeModel.fromSoil SoilType.SandyLoamB)
  | "loam" => Except.ok (SoilTypeModel.fromSoil SoilType.Loam)
  | "siltloam" => Except.ok (SoilTypeModel.fromSoil SoilType.SiltLoam)
  | "peat" => Except.ok (SoilTypeModel.fromSoil SoilType.Peat)
  | "water" => Except.ok (SoilTypeModel.fromSoil SoilType.Water)
  | "universal" => Except.ok (SoilTypeModel.fromSoil SoilType.Universal)
  | "sandtms1" => Except.ok (SoilTypeModel.fromSoil SoilType.SandTMS1)
  | "loamysandtms1" => Except.ok (SoilTypeModel.fromSoil SoilType.LoamySandTMS1)
  | "siltloamtms1" => Except.ok (SoilTypeModel.fromSoil SoilType.SiltLoamTMS1)
  | _ => Except.error ("Unknown soil type: " ++ s)

/-- Reference temperature `REF_T = 24.0` °C. -/
def REF_T : ℚ := 24.0

/-- Temperature correction coefficient `ACOR_T = 1.911327`. -/
def ACOR_T : ℚ := 1.911327

/-- Temperature correction coefficient `WCOR_T = 0.64108`. -/
def WCOR_T : ℚ := 0.64108

/-- Rust's `f64::clamp(lo, hi)` for `lo ≤ hi` on non-NaN values. -/
def clampQ (v lo hi : ℚ) : ℚ := min (max v lo) hi

/-- `mc_calc_vwc`: the myClim two-pass temperature-corrected VWC.  The
temperature is `Option ℚ`, with `none` standing for an `f64` NaN (the one
NaN the function tests for via `temp_value.is_nan()`). -/
def mc_calc_vwc (raw_value : ℚ) (temp_value : Option ℚ) (soil : SoilType) : ℚ :=
  let (a, b, c) := soil.coeffs
  let vwc := a * raw_value * raw_value + b * raw_value + c
  let dcor_t := WCOR_T - ACOR_T
  let tcor := match temp_value with
    | none => raw_value
    | some t => raw_value + (REF_T - t) * (ACOR_T + dcor_t * vwc)
  let cal_cor_factor : ℚ := 0.0
  let cal_cor_slope : ℚ := 0.0
  let corrected_raw := tcor + cal_cor_factor + cal_cor_slope * vwc
  let vwc_cor := a * corrected_raw * corrected_raw + b * corrected_raw + c
  clampQ vwc_cor 0.0 1.0

/-- Universal gas constant `R_GAS = 8.314` J/(mol·K). -/
def R_GAS : ℚ := 8.314

/-- `struct GasFluxResult`: three fluxes and the three regression R² values. -/
structure GasFluxResult where
  flux_co2_umol_m2_s : ℚ
  flux_ch4_nmol_m2_s : ℚ
  flux_h2o_umol_m2_s : ℚ
  r2_co2 : ℚ
  r2_ch4 : ℚ
  r2_h2o : ℚ
deriving DecidableEq

/-- `f64::EPSILON = 2⁻⁵²`, the threshold of the degenerate-variance guards. -/
def f64_epsilon : ℚ := 1 / 2 ^ 52

/-- `x_mean` in `linear_regression`: `x.iter().sum() / n` with `n = x.len()`. -/
def x_mean (x : List ℚ) : ℚ := x.sum / (x.length : ℚ)

/-- `y_mean` in `linear_regression`: `y.iter().sum() / n` where `n = x.len()`
(the source divides by the length of `x`, not of `y`). -/
def y_mean (x y : List ℚ) : ℚ := y.sum / (x.length : ℚ)

/-- `ss_xy`: the loop accumulates `dx*dy` for `i in 0..x.len()`; when
`y.len() ≥ x.len()` this is the truncating zip of the two lists. -/
def ss_xy (x y : List ℚ) : ℚ :=
  (List.zipWith (fun a b => (a - x_mean x) * (b - y_mean x y)) x y).sum

/-- `ss_xx`: the loop accumulates `dx*dx` over all indices of `x`. -/
def ss_xx (x : List ℚ) : ℚ :=
  (x.map (fun a => (a - x_mean x) * (a - x_mean x))).sum

/-- `ss_yy`: the loop accumulates `dy*dy` for `i in 0..x.len()`, so only the
first `x.len()` entries of `y` contribute. -/
def ss_yy (x y : List ℚ) : ℚ :=
  (List.zipWith (fun _ b => (b - y_mean x y) * (b - y_mean x y)) x y).sum

/-- The returned `slope`: `0` when `ss_xx.abs() < f64::EPSILON`, otherwise
`ss_xy / ss_xx`. -/
def slope_of (x y : List ℚ) : ℚ :=
  if |ss_xx x| < f64_epsilon then 0.0 else ss_xy x y / ss_xx x

/-- The returned `r2`: `0` under either degenerate guard, otherwise
`r * r` with `r = ss_xy / (ss_xx * ss_yy).sqrt()`.  Under the guard both
`ss_xx` and `ss_yy` are positive (each is a sum of squares of absolute value
at least epsilon), so `(ss_xy / √(ss_xx·ss_yy))² = ss_xy² / (ss_xx·ss_yy)`
exactly, which is the rational value computed here. -/
def r2_of (x y : List ℚ) : ℚ :=
  if |ss_xx x| < f64_epsilon ∨ |ss_yy x y| < f64_epsilon then 0.0
  else ss_xy x y * ss_xy x y / (ss_xx x * ss_yy x y)

/-- `linear_regression(x, y) -> (slope, r²)`.  The loop indexes `y[i]` for
every `i < x.len()`, so a `y` shorter than `x` panics (out-of-bounds),
modelled as `none`. -/
def linear_regression (x y : List ℚ) : Option (ℚ × ℚ) :=
  if y.length < x.length then none
  else some (slope_of x y, r2_of x y)

/-- `compute_gas_flux`: mean temperature and pressure, ideal-gas scale factor,
then one regression per gas channel.  `none` models a panic: the
`assert!(!timestamps_s.is_empty())` or an out-of-bounds index inside
`linear_regression`. -/
def compute_gas_flux (timestamps_s co2_ppm ch4_ppb h2o_mmol_mol
    chamber_temp_c chamber_pressure_kpa : List ℚ)
    (total_volume_m3 chamber_area_m2 : ℚ) : Option GasFluxResult :=
  if timestamps_s = [] then none
  else
    let t_k := chamber_temp_c.sum / (chamber_temp_c.length : ℚ) + 273.15
    let p_pa := chamber_pressure_kpa.sum / (chamber_pressure_kpa.length : ℚ) * 1000.0
    let pv_art := (p_pa / (R_GAS * t_k)) * (total_volume_m3 / chamber_area_m2)
    let co2_mol := co2_ppm.map (fun v => v * 1e-6)
    (linear_regression timestamps_s co2_mol).bind fun co2_fit =>
      (linear_regression timestamps_s ch4_ppb).bind fun ch4_fit =>
        (linear_regression timestamps_s h2o_mmol_mol).map fun h2o_fit =>
          { flux_co2_umol_m2_s := co2_fit.1 * pv_art * 1e6
            flux_ch4_nmol_m2_s := ch4_fit.1 * 1e-9 * pv_art * 1e9
            flux_h2o_umol_m2_s := h2o_fit.1 * 1e-3 * pv_art * 1e6
            r2_co2 := co2_fit.2
            r2_ch4 := ch4_fit.2
            r2_h2o := h2o_fit.2 }

/-! ### Helper lemmas -/

/-- When `y` is at least as long as `x` the regression loop never indexes out
of bounds and the pair of guarded quotients is returned. -/
lemma linear_regression_eq_some (x y : List ℚ) (h : ¬ y.length < x.length) :
    linear_regression x y = some (slope_of x y, r2_of x y) := by
  simp [linear_regression, h]

/-- The regression panics (returns `none`) exactly when `y` is shorter. -/
lemma linear_regression_eq_none_iff (x y : List ℚ) :
    linear_regression x y = none ↔ y.length < x.length := by
  unfold linear_regression
  split <;> simp_all

/-- A sum of pointwise-nonnegative zipped terms is nonnegative. -/
lemma zipWith_sum_nonneg (f : ℚ → ℚ → ℚ) (hf : ∀ a b, 0 ≤ f a b) :
    ∀ x y : List ℚ, 0 ≤ (List.zipWith f x y).sum
  | [], _ => by simp
  | _ :: _, [] => by simp
  | a :: x, b :: y => by
    simp only [List.zipWith_cons_cons, List.sum_cons]
    exact add_nonneg (hf a b) (zipWith_sum_nonneg f hf x y)

/-- `ss_xx` is a sum of squares, hence nonnegative. -/
lemma ss_xx_nonneg (x : List ℚ) : 0 ≤ ss_xx x := by
  refine List.sum_nonneg fun z hz => ?_
  obtain ⟨a, -, rfl⟩ := List.mem_map.mp hz
  exact mul_self_nonneg _

/-- `ss_yy` is a sum of squares, hence nonnegative. -/
lemma ss_yy_nonneg (x y : List ℚ) : 0 ≤ ss_yy x y :=
  zipWith_sum_nonneg _ (fun _ b => mul_self_nonneg (b - y_mean x y)) x y

/-- Clamping to `[0.0, 1.0]` always lands in the unit interval. -/
lemma clampQ_unit (v : ℚ) : 0 ≤ clampQ v 0.0 1.0 ∧ clampQ v 0.0 1.0 ≤ 1 := by
  constructor <;> norm_num [clampQ, le_min_iff, le_max_iff, min_le_iff]

/-! ### Claim theorems -/

/-- C1 (counterexample): the claim that `"Silt Loam"` resolves like
`"siltloam"` is false: lowercasing keeps the space, no match arm contains a
space, so the human-readable name is rejected while the machine name
succeeds. -/
theorem c1_human_name_counterexample :
    (SoilTypeModel.try_from "Silt Loam").isOk = false ∧
    SoilTypeModel.try_from "Silt Loam" =
      Except.error "Unknown soil type: Silt Loam" ∧
    SoilTypeModel.try_from "siltloam" =
      Except.ok (SoilTypeModel.fromSoil SoilType.SiltLoam) :=
  ⟨rfl, rfl, rfl⟩

/-- C1 (amended): soil-type string resolution is case-insensitive on the
compact machine names only: `"siltloam"`, `"SILTLOAM"` and `"SiltLoam"` all
resolve to `SoilType.SiltLoam`, while the spaced human-readable spellings
`"Silt Loam"` and `"SILT LOAM"` are rejected with an error naming the
offending string. -/
theorem c1_machine_name_case_insensitive :
    SoilTypeModel.try_from "siltloam" =
      Except.ok (SoilTypeModel.fromSoil SoilType.SiltLoam) ∧
    SoilTypeModel.try_from "SILTLOAM" =
      Except.ok (SoilTypeModel.fromSoil SoilType.SiltLoam) ∧
    SoilTypeModel.try_from "SiltLoam" =
      Except.ok (SoilTypeModel.fromSoil SoilType.SiltLoam) ∧
    SoilTypeModel.try_from "SILT LOAM" =
      Except.error "Unknown soil type: SILT LOAM" ∧
    SoilTypeModel.try_from "Silt Loam" =
      Except.error "Unknown soil type: Silt Loam" :=
  ⟨rfl, rfl, rfl, rfl, rfl⟩

/-- C2 (counterexample): the claim that `compute_gas_flux` never returns a
result on unequal-length or empty inputs is false: with a CO₂ sequence
longer than the timestamps it returns a result, and with an empty
temperature sequence it also returns a result. -/
theorem c2_shape_counterexample :
    (compute_gas_flux [0, 1] [400, 401, 402] [2000, 2001] [10, 11] [20, 20]
      [100, 100] 1 1).isSome = true ∧
    ([400, 401, 402] : List ℚ).length ≠ ([0, 1] : List ℚ).length ∧
    (compute_gas_flux [0, 1] [400, 401] [2000, 2001] [10, 11] []
      [100, 100] 1 1).isSome = true :=
  ⟨by decide, by decide, by decide⟩

/-- C2 (amended): `compute_gas_flux` fails (the assert on empty timestamps,
or an out-of-bounds index in a regression) exactly when the timestamp
sequence is empty or one of the CO₂/CH₄/H₂O sequences is shorter than the
timestamp sequence; it returns a result in every other case, including
longer gas sequences and empty or mismatched temperature/pressure
sequences. -/
theorem c2_failure_characterization (ts co2 ch4 h2o temp press : List ℚ)
    (vol area : ℚ) :
    compute_gas_flux ts co2 ch4 h2o temp press vol area = none ↔
      ts = [] ∨ co2.length < ts.length ∨ ch4.length < ts.length ∨
        h2o.length < ts.length := by
  by_cases hts : ts = []
  · simp [compute_gas_flux, hts]
  · simp only [compute_gas_flux, if_neg hts, linear_regression, List.length_map]
    split_ifs with h1 h2 h3 <;> simp_all

/-- C3: for every rational raw value, every temperature (`none` modelling
NaN) and every enumerated soil type, `mc_calc_vwc` lands in `[0, 1]`. -/
theorem c3_vwc_within_unit_interval (raw : ℚ) (temp : Option ℚ)
    (soil : SoilType) :
    0 ≤ mc_calc_vwc raw temp soil ∧ mc_calc_vwc raw temp soil ≤ 1 := by
  cases soil <;> cases temp <;> exact clampQ_unit _

/-- C4: on equal-length non-empty inputs `linear_regression` returns a
result, and every division it performs is genuine: the mean divisor is
nonzero, the slope is either the guarded `0` or a quotient by a `ss_xx`
of absolute value at least machine epsilon (hence nonzero), and the R² is
either the guarded `0` or a quotient by the positive product
`ss_xx · ss_yy` (so the square root's argument is positive as well) —
in exact arithmetic, the outputs are always well-defined finite values. -/
theorem c4_regression_finite (x y : List ℚ) (hne : x ≠ [])
    (hlen : x.length = y.length) :
    ∃ s r2, linear_regression x y = some (s, r2) ∧
      (x.length : ℚ) ≠ 0 ∧
      (s = 0 ∨ (f64_epsilon ≤ |ss_xx x| ∧ ss_xx x ≠ 0 ∧
        s = ss_xy x y / ss_xx x)) ∧
      (r2 = 0 ∨ (f64_epsilon ≤ |ss_xx x| ∧ f64_epsilon ≤ |ss_yy x y| ∧
        0 < ss_xx x * ss_yy x y ∧
        r2 = ss_xy x y * ss_xy x y / (ss_xx x * ss_yy x y))) := by
  refine ⟨slope_of x y, r2_of x y, linear_regression_eq_some x y (by omega),
    ?_, ?_, ?_⟩
  · have : x.length ≠ 0 := fun h0 => hne (List.length_eq_zero.mp h0)
    exact_mod_cast this
  · by_cases h : |ss_xx x| < f64_epsilon
    · left; norm_num [slope_of, h]
    · right
      have h1 : f64_epsilon ≤ |ss_xx x| := not_lt.mp h
      have h2 : ss_xx x ≠ 0 :=
        abs_pos.mp (lt_of_lt_of_le (by norm_num [f64_epsilon]) h1)
      exact ⟨h1, h2, by simp [slope_of, h]⟩
  · by_cases h : |ss_xx x| < f64_epsilon ∨ |ss_yy x y| < f64_epsilon
    · left; norm_num [r2_of, h]
    · push_neg at h
      obtain ⟨hxx, hyy⟩ := h
      right
      have hepos : (0 : ℚ) < f64_epsilon := by norm_num [f64_epsilon]
      have hx0 : 0 < ss_xx x := by
        have := lt_of_lt_of_le hepos hxx
        rwa [abs_of_nonneg (ss_xx_nonneg x)] at this
      have hy0 : 0 < ss_yy x y := by
        have := lt_of_lt_of_le hepos hyy
        rwa [abs_of_nonneg (ss_yy_nonneg x y)] at this
      refine ⟨hxx, hyy, mul_pos hx0 hy0, ?_⟩
      simp [r2_of, not_lt.mpr hxx, not_lt.mpr hyy]

/-- C4 witness: the guarantees instantiated on a concrete line. -/
theorem c4_regression_finite_witness :
    ∃ s r2, linear_regression [0, 1] ([1, 3] : List ℚ) = some (s, r2) ∧
      ((([0, 1] : List ℚ).length : ℚ)) ≠ 0 ∧
      (s = 0 ∨ (f64_epsilon ≤ |ss_xx [0, 1]| ∧ ss_xx [0, 1] ≠ 0 ∧
        s = ss_xy [0, 1] [1, 3] / ss_xx [0, 1])) ∧
      (r2 = 0 ∨ (f64_epsilon ≤ |ss_xx [0, 1]| ∧
        f64_epsilon ≤ |ss_yy [0, 1] [1, 3]| ∧
        0 < ss_xx [0, 1] * ss_yy [0, 1] [1, 3] ∧
        r2 = ss_xy [0, 1] [1, 3] * ss_xy [0, 1] [1, 3] /
          (ss_xx [0, 1] * ss_yy [0, 1] [1, 3]))) :=
  c4_regression_finite [0, 1] [1, 3] (by decide) (by decide)

/-- C5: on well-shaped inputs `compute_gas_flux` computes the mean-based
kelvin temperature and pascal pressure, the ideal-gas scale factor
`K = (P_Pa / (8.314 · T_K)) · (V / A)`, and the three fluxes
`slope·K·1e6`, `slope·1e-9·K·1e9` and `slope·1e-3·K·1e6` with each R² taken
from the corresponding channel's regression.  The factor order of the
source is preserved verbatim in the definition; in the exact rational
model the equalities below confirm the stated formulas. -/
theorem c5_flux_formulas (ts co2 ch4 h2o temp press : List ℚ) (vol area : ℚ)
    (hts : ts ≠ []) (hco2 : ¬ co2.length < ts.length)
    (hch4 : ¬ ch4.length < ts.length) (hh2o : ¬ h2o.length < ts.length) :
    compute_gas_flux ts co2 ch4 h2o temp press vol area =
      (let t_k := temp.sum / (temp.length : ℚ) + 273.15
       let p_pa := press.sum / (press.length : ℚ) * 1000.0
       let k := (p_pa / (8.314 * t_k)) * (vol / area)
       some { flux_co2_umol_m2_s :=
                slope_of ts (co2.map (fun v => v * 1e-6)) * k * 1e6
              flux_ch4_nmol_m2_s := slope_of ts ch4 * 1e-9 * k * 1e9
              flux_h2o_umol_m2_s := slope_of ts h2o * 1e-3 * k * 1e6
              r2_co2 := r2_of ts (co2.map (fun v => v * 1e-6))
              r2_ch4 := r2_of ts ch4
              r2_h2o := r2_of ts h2o }) := by
  have hc : ¬ (co2.map (fun v => v * 1e-6)).length < ts.length := by
    simpa using hco2
  simp only [compute_gas_flux, if_neg hts, linear_regression_eq_some _ _ hc,
    linear_regression_eq_some _ _ hch4, linear_regression_eq_some _ _ hh2o,
    Option.some_bind, Option.map_some', R_GAS]

/-- C5 witness: the flux formulas instantiated on concrete sequences. -/
theorem c5_flux_formulas_witness :
    compute_gas_flux [0, 1] [400, 401] [2000, 2001] [10, 11] [20, 22]
        [100, 100] 1 2 =
      (let t_k := ([20, 22] : List ℚ).sum / (([20, 22] : List ℚ).length : ℚ)
        + 273.15
       let p_pa := ([100, 100] : List ℚ).sum /
        (([100, 100] : List ℚ).length : ℚ) * 1000.0
       let k := (p_pa / (8.314 * t_k)) * ((1 : ℚ) / 2)
       some { flux_co2_umol_m2_s :=
                slope_of [0, 1] (([400, 401] : List ℚ).map
                  (fun v => v * 1e-6)) * k * 1e6
              flux_ch4_nmol_m2_s := slope_of [0, 1] [2000, 2001] * 1e-9 * k * 1e9
              flux_h2o_umol_m2_s := slope_of [0, 1] [10, 11] * 1e-3 * k * 1e6
              r2_co2 := r2_of [0, 1] (([400, 401] : List ℚ).map
                (fun v => v * 1e-6))
              r2_ch4 := r2_of [0, 1] [2000, 2001]
              r2_h2o := r2_of [0, 1] [10, 11] }) :=
  c5_flux_formulas [0, 1] [400, 401] [2000, 2001] [10, 11] [20, 22]
    [100, 100] 1 2 (by decide) (by decide) (by decide) (by decide)

/-- C6: with a finite temperature, `mc_calc_vwc` is exactly the two-pass
computation: uncorrected quadratic `vwc0`, corrected raw
`raw + (24 − T)·(1.911327 + (0.64108 − 1.911327)·vwc0)`, the quadratic on
the corrected raw, clamped to `[0, 1]`. -/
theorem c6_vwc_two_pass (raw t a b c : ℚ) (soil : SoilType)
    (h : soil.coeffs = (a, b, c)) :
    mc_calc_vwc raw (some t) soil =
      (let vwc0 := a * raw * raw + b * raw + c
       let corrected_raw :=
         raw + (24.0 - t) * (1.911327 + (0.64108 - 1.911327) * vwc0)
       clampQ (a * corrected_raw * corrected_raw + b * corrected_raw + c)
         0.0 1.0) := by
  cases soil <;>
    (simp only [SoilType.coeffs] at h
     injection h with h1 h23
     injection h23 with h2 h3
     subst h1; subst h2; subst h3
     refine congrArg (fun v => clampQ v 0.0 1.0) ?_
     norm_num [REF_T, ACOR_T, WCOR_T])

/-- C6 witness: the two-pass formula instantiated for silt loam. -/
theorem c6_vwc_two_pass_witness :
    mc_calc_vwc 1000 (some 20) SoilType.SiltLoam =
      (let vwc0 := 1.70e-8 * 1000 * 1000 + 0.000118119 * 1000 + -0.1011685
       let corrected_raw :=
         (1000 : ℚ) + (24.0 - 20) * (1.911327 + (0.64108 - 1.911327) * vwc0)
       clampQ (1.70e-8 * corrected_raw * corrected_raw +
         0.000118119 * corrected_raw + -0.1011685) 0.0 1.0) :=
  c6_vwc_two_pass 1000 20 1.70e-8 0.000118119 (-0.1011685)
    SoilType.SiltLoam rfl

/-- C7: with equal-length inputs the regression always returns a result,
with slope `0` when the x-variance guard trips and R² `0` when either
variance guard trips — flat data is not an error. -/
theorem c7_degenerate_variance (x y : List ℚ) (hne : x ≠ [])
    (hlen : x.length = y.length) :
    ∃ s r2, linear_regression x y = some (s, r2) ∧
      (|ss_xx x| < f64_epsilon → s = 0) ∧
      ((|ss_xx x| < f64_epsilon ∨ |ss_yy x y| < f64_epsilon) → r2 = 0) := by
  refine ⟨slope_of x y, r2_of x y, linear_regression_eq_some x y (by omega),
    ?_, ?_⟩
  · intro h; norm_num [slope_of, h]
  · intro h; norm_num [r2_of, h]

/-- C7 witness: constant x data with varying y. -/
theorem c7_degenerate_variance_witness :
    ∃ s r2, linear_regression [1, 1] ([2, 3] : List ℚ) = some (s, r2) ∧
      (|ss_xx [1, 1]| < f64_epsilon → s = 0) ∧
      ((|ss_xx [1, 1]| < f64_epsilon ∨ |ss_yy [1, 1] [2, 3]| < f64_epsilon) →
        r2 = 0) :=
  c7_degenerate_variance [1, 1] [2, 3] (by decide) (by decide)

/-- C8: with a NaN temperature (modelled as `none`) `mc_calc_vwc` equals the
corrected-pass quadratic and clamp with the corrected raw replaced by the
raw value itself — the skip-correction path, not a different formula. -/
theorem c8_nan_skips_correction (raw a b c : ℚ) (soil : SoilType)
    (h : soil.coeffs = (a, b, c)) :
    mc_calc_vwc raw none soil =
      clampQ (a * raw * raw + b * raw + c) 0.0 1.0 := by
  cases soil <;>
    (simp only [SoilType.coeffs] at h
     injection h with h1 h23
     injection h23 with h2 h3
     subst h1; subst h2; subst h3
     refine congrArg (fun v => clampQ v 0.0 1.0) ?_
     norm_num)

/-- C8 witness: the NaN path evaluated for sand. -/
theorem c8_nan_skips_correction_witness :
    mc_calc_vwc 500 none SoilType.Sand =
      clampQ (-3.00e-9 * 500 * 500 + 0.000161192 * 500 + -0.1099565)
        0.0 1.0 :=
  c8_nan_skips_correction 500 (-3.00e-9) 0.000161192 (-0.1099565)
    SoilType.Sand rfl

/-- C9: any string whose lowercase form is not one of the thirteen machine
names is rejected with an error that carries the original input string
verbatim (no default soil type is substituted). -/
theorem c9_unknown_soil_error (s : String)
    (h : to_lowercase s ∉ machine_names) :
    SoilTypeModel.try_from s = Except.error ("Unknown soil type: " ++ s) := by
  unfold SoilTypeModel.try_from
  split <;> first
    | rfl
    | (rename_i heq; exact absurd (by rw [heq]; decide) h)

/-- C9 witness: the unrecognized string `"clay"` is named in the error. -/
theorem c9_unknown_soil_error_witness :
    SoilTypeModel.try_from "clay" =
      Except.error ("Unknown soil type: " ++ "clay") :=
  c9_unknown_soil_error "clay" (by decide)

/-- C10: for every soil type `t`, resolving its machine name succeeds and
round-trips: the resulting model's `id` is `t` and its `machine_name` is
`t.as_str`. -/
theorem c10_machine_name_roundtrip : ∀ t : SoilType,
    SoilTypeModel.try_from t.as_str = Except.ok (SoilTypeModel.fromSoil t) ∧
    (SoilTypeModel.fromSoil t).id = t ∧
    (SoilTypeModel.fromSoil t).machine_name = t.as_str := by
  intro t; cases t <;> exact ⟨rfl, rfl, rfl⟩

end SensorToolbox

